import Mathlib

/-!
Verification of the toy-Monte-Carlo `Runner` of the `alea` package
(`alea/runner.py`) against its natural-language specification.

The Python code is shallowly embedded: Python dicts become ordered
association lists (`PyDict`), Python numbers become an inductive `PyVal`
(with `bool` counting as numeric, since Python `bool` is a subclass of
`int`), Python floats in result records become `PyFloat` (a rational value
or not-a-number), and fallible code returns `Except String`.  The
collaborating `StatisticalModel` instance (class not part of the sources,
only its call sites are) is an abstract `Model` record of the operations
the Runner invokes on it.
-/

namespace Alea

/-- Python values, as far as the Runner inspects them: the validation in
`runner.py` only asks `isinstance(v, (float, int))` of dict values. -/
inductive PyVal where
  | pyBool (b : Bool)
  | pyInt (n : Int)
  | pyFloat (q : ℚ)
  | pyStr (s : String)
  | pyNone
deriving DecidableEq, Inhabited

/-- Embedding of Python `isinstance(v, (float, int))`.  Python `bool` is a
subclass of `int`, so booleans count as numeric. -/
def PyVal.isNumeric : PyVal → Bool
  | .pyBool _ => true
  | .pyInt _ => true
  | .pyFloat _ => true
  | _ => false

/-- Numeric content of a (numeric) `PyVal`, with `True = 1`, `False = 0` as
in Python; non-numeric values map to a junk `0` (never used on them). -/
def PyVal.toRat : PyVal → ℚ
  | .pyBool b => if b then 1 else 0
  | .pyInt n => (n : ℚ)
  | .pyFloat q => q
  | _ => 0

/-- Rendering used when an error message interpolates a value (the Python
code uses f-strings; the exact text is cosmetic). -/
def PyVal.render : PyVal → String
  | .pyBool b => if b then "True" else "False"
  | .pyInt n => toString n
  | .pyFloat q => toString q.num ++ "/" ++ toString q.den
  | .pyStr s => s
  | .pyNone => "None"

/-- A Python dict: an insertion-ordered association list. -/
abbrev PyDict := List (String × PyVal)

/-- Lookup of a key, Python `d[k]` / `d.get(k)` (first occurrence). -/
def dlookup : PyDict → String → Option PyVal
  | [], _ => none
  | (k, v) :: rest, key => if k = key then some v else dlookup rest key

/-- Python `k in d`. -/
def hasKey (d : PyDict) (key : String) : Bool := (dlookup d key).isSome

/-- Python `d.pop(k)`: remove the (first) binding of `key`. -/
def dpop : PyDict → String → PyDict
  | [], _ => []
  | (k, v) :: rest, key => if k = key then rest else (k, v) :: dpop rest key

/-- Python `d[k] = v`: replace the binding in place if present, else append. -/
def dset : PyDict → String → PyVal → PyDict
  | [], key, v => [(key, v)]
  | (k, w) :: rest, key, v =>
      if k = key then (key, v) :: rest else (k, w) :: dset rest key v

/-- Python `d1.update(d2)` (also `{**d1, **d2}`): fold `dset` over `d2`. -/
def dupdate (d₁ d₂ : PyDict) : PyDict :=
  d₂.foldl (fun acc kv => dset acc kv.1 kv.2) d₁

/-- Keys of a dict, in insertion order. -/
def dkeys (d : PyDict) : List String := d.map Prod.fst

/-- Python `all(isinstance(v, (float, int)) for v in d.values())`. -/
def allNumeric (d : PyDict) : Bool := d.all (fun kv => kv.2.isNumeric)

/-- Rendering of a dict for error messages. -/
def renderDict (d : PyDict) : String :=
  "dict(" ++ String.intercalate ", " (d.map (fun kv => kv.1 ++ "=" ++ kv.2.render)) ++ ")"

/-- Rendering of a list of names for error messages. -/
def renderNames (l : List String) : String :=
  "list(" ++ String.intercalate ", " l ++ ")"

/-- A Python float as it appears in result records: a real value (modelled
as a rational) or `np.nan`. -/
inductive PyFloat where
  | val (q : ℚ)
  | nan
deriving DecidableEq, Inhabited

/-- A toy dataset handle: `none` is Python `None` (the `no_toydata`
placeholder), `some t` is an opaque dataset identified by `t`. -/
abbrev Data := Option Nat

/-- Match `pat` against the front of `l`; on success return the remainder
of `l` after the match. -/
def stripLead : List Char → List Char → Option (List Char)
  | [], l => some l
  | _ :: _, [] => none
  | p :: ps, c :: cs => if c = p then stripLead ps cs else none

/-- Remove all occurrences of `pat`, left to right and non-overlapping:
the engine behind Python `s.replace(pat, "")`.  Structural recursion on a
fuel that the wrapper sets to the length of the scanned list (each step
consumes at least one character, so that fuel is never exhausted). -/
def removeOccs : Nat → List Char → List Char → List Char
  | 0, _, _ => []
  | fuel + 1, pat, l =>
      match l with
      | [] => []
      | c :: cs =>
          match stripLead pat (c :: cs) with
          | some rest =>
              if rest.length < l.length then removeOccs fuel pat rest
              else c :: removeOccs fuel pat cs
          | none => c :: removeOccs fuel pat cs

/-- Python `s.replace(pat, "")` (all occurrences removed). -/
def replaceRemove (s pat : String) : String := ⟨removeOccs s.data.length pat.data s.data⟩

/-- Python `s.endswith(pat)`. -/
def strEndsWith (s pat : String) : Bool :=
  pat.data.reverse.isPrefixOf s.data.reverse

/-- Error-propagating map over a list, in order: the moral content of a
Python `for` loop whose body may raise.  The first raised error aborts. -/
def mapE {α β : Type} (f : α → Except String β) : List α → Except String (List β)
  | [] => .ok []
  | x :: xs =>
      match f x with
      | .error e => .error e
      | .ok y =>
          match mapE f xs with
          | .error e => .error e
          | .ok ys => .ok (y :: ys)

/-- Check whether an `Except` value is a success. -/
def isOkE {α : Type} : Except String α → Bool
  | .ok _ => true
  | .error _ => false

/-- Abstract interface of the collaborating `StatisticalModel` instance:
the operations `runner.py` invokes on `self.model`.  The class itself is
not part of the sources; each field abstracts one contract item of the
spec (§6).  `fitVal`/`fitLL` give the fit record and maximum
log-likelihood for a dataset and a fixed-parameter hypothesis, `ci` the
confidence interval, `expectations` the `get_expectation_values` mapping,
`genData` the stream of generated datasets (call index and generate
values). -/
structure Model where
  fittable : List String
  fitVal : Data → PyDict → String → ℚ
  fitLL : Data → PyDict → ℚ
  ci : Data → String → PyDict → PyDict → PyFloat × PyFloat
  expectations : PyDict → String → Option ℚ
  genData : Nat → PyDict → Nat

/-- Modelled from the spec: `StatisticalModel.get_parameter_list` is not
under `src/` (only its call site in `Runner._get_parameter_list` is).
Spec §6 gives the contract `get_parameter_list() -> set of name` and §4.1
says the Runner "computes the fixed result-column schema from the model's
sorted fittable-parameter list", so it returns the fittable-parameter
names. -/
def Model.get_parameter_list (m : Model) : List String := m.fittable

/-- Lexicographic comparison of character lists by code point: the order
Python uses to compare strings. -/
def lexLe : List Char → List Char → Bool
  | [], _ => true
  | _ :: _, [] => false
  | a :: as, b :: bs =>
      if a.toNat < b.toNat then true
      else if b.toNat < a.toNat then false
      else lexLe as bs

/-- Python string comparison `a <= b` (by code points). -/
def pyStrLe (a b : String) : Bool := lexLe a.data b.data

/-- Python `sorted` on strings: a stable ascending sort in the code-point
order. -/
def sortStrings (l : List String) : List String :=
  List.insertionSort (fun a b => pyStrLe a b = true) l

/-- Embedding of `Runner._update_poi` (runner.py lines 190-233): resolve a
`poi_expectation` entry of `generate_values` into a value for the
parameter of interest.  The final guard embeds Python `/` raising
`ZeroDivisionError` on a zero divisor. -/
def updatePoi (m : Model) (poi : String) (gv nominal : PyDict) :
    Except String PyDict :=
  match dlookup gv "poi_expectation" with
  | none => .ok gv
  | some e =>
      if hasKey gv poi then
        .error ("You can not specify both " ++ poi ++ " along with poi_expectation, because "
          ++ poi ++ " will be updated according to poi_expectation.")
      else if ¬ strEndsWith poi "_rate_multiplier" then
        .error ("poi " ++ poi ++ " should end with _rate_multiplier, if poi_expectation is "
          ++ "provided, because you want to update the generate_values according to the "
          ++ "expectations.")
      else
        match m.expectations (dupdate (dpop gv "poi_expectation") nominal)
            (replaceRemove poi "_rate_multiplier") with
        | none => .error ("KeyError: " ++ replaceRemove poi "_rate_multiplier")
        | some n =>
            if n = 0 then .error "ZeroDivisionError: float division by zero"
            else .ok (dset (dpop gv "poi_expectation") poi (.pyFloat (e.toRat / n)))

/-- Embedding of the `generate_values` setter (runner.py lines 150-158):
validate that all values are numeric, then apply `_update_poi`. -/
def setGenerateValues (m : Model) (poi : String) (nominal value : PyDict) :
    Except String PyDict :=
  if allNumeric value then updatePoi m poi value nominal
  else .error ("generate_values should be a dict of float! But " ++ renderDict value
    ++ " is provided.")

/-- Embedding of the `common_hypothesis` setter (runner.py lines 164-170). -/
def setCommonHypothesis (value : PyDict) : Except String PyDict :=
  if allNumeric value then .ok value
  else .error ("common_hypothesis should be a dict of float! But " ++ renderDict value
    ++ " is provided.")

/-- A constructor argument of the hypotheses list: a symbolic string or an
explicit dict. -/
inductive HypSpec where
  | str (s : String)
  | dict (d : PyDict)
deriving DecidableEq, Inhabited

/-- Whether a hypotheses-list element is the string `"free"` (Python
`"free" in hypotheses` membership test). -/
def isFreeHyp : HypSpec → Bool
  | .str s => s = "free"
  | .dict _ => false

/-- Python `"free" in hypotheses`. -/
def hasFree (l : List HypSpec) : Bool := l.any isFreeHyp

/-- Python `hypotheses.index("free")`: index of the first `"free"`. -/
def idxOfFree : List HypSpec → Nat
  | [] => 0
  | h :: t => if isFreeHyp h then 0 else idxOfFree t + 1

/-- Resolution of one hypotheses-list element to a dict, as in the body of
the loop of `Runner._get_hypotheses` (runner.py lines 255-269).  A string
other than `"null"`, `"true"`, `"free"` reaches `array.update(hypothesis)`
with a `str` argument, which raises in Python. -/
def resolveHypSpec (poi : String) (gv : PyDict) : HypSpec → Except String PyDict
  | .str s =>
      if s = "null" then .ok [(poi, .pyFloat 0)]
      else if s = "true" then
        match dlookup gv poi with
        | none => .error (poi ++ " should be provided in generate_values")
        | some v => .ok [(poi, v)]
      else if s = "free" then .ok []
      else .error ("TypeError: dict update sequence expected, got str " ++ s)
  | .dict d => .ok d

/-- Embedding of `Runner._get_hypotheses` (runner.py lines 244-278). -/
def getHypotheses (poi : String) (cci : Bool) (gv common : PyDict)
    (hyps : List HypSpec) : Except String (List PyDict) :=
  if hyps.length = 0 then .error "hypotheses should not be empty!"
  else if ¬ hasFree hyps ∧ cci then
    .error "free hypothesis is needed for confidence interval calculation!"
  else if hasFree hyps ∧ idxOfFree hyps ≠ 0 then
    .error "free hypothesis should be the first hypothesis!"
  else
    mapE (fun h =>
      match resolveHypSpec poi gv h with
      | .error e => .error e
      | .ok hd =>
          let arr := dupdate common hd
          if allNumeric arr then .ok arr
          else .error ("hypothesis should be a dict of float! But " ++ renderDict arr
            ++ " is provided.")) hyps

/-- The constructor arguments of `Runner.__init__` that the embedded
behavior depends on, with the Python default values.  `stored_toydata`
models the content of the toy-data file named by `toydata_file`. -/
structure RunnerArgs where
  poi : String := "mu"
  hypotheses : List HypSpec := [.str "free"]
  n_mc : Nat := 3
  common_hypothesis : PyDict := []
  generate_values : PyDict := []
  nominal_values : PyDict := []
  compute_confidence_interval : Bool := false
  toydata_mode : String := "generate_and_write"
  only_toydata : Bool := false
  stored_toydata : List Nat := []

/-- The state of a constructed `Runner` (runner.py lines 118-144). -/
structure Runner where
  model : Model
  poi : String
  hypotheses : List HypSpec
  common_hypothesis : PyDict
  generate_values : PyDict
  nominal_values : PyDict
  compute_confidence_interval : Bool
  n_mc : Nat
  toydata_mode : String
  only_toydata : Bool
  stored_toydata : List Nat
  result_names : List String
  hypotheses_values : List PyDict

/-- Embedding of `Runner.__init__` (runner.py lines 72-144), in source
order: the `common_hypothesis` setter, the `generate_values` setter (which
applies `_update_poi`), `_get_parameter_list`, then `_get_hypotheses`. -/
def Runner.init (m : Model) (a : RunnerArgs) : Except String Runner :=
  match setCommonHypothesis a.common_hypothesis with
  | .error e => .error e
  | .ok common =>
      match setGenerateValues m a.poi a.nominal_values a.generate_values with
      | .error e => .error e
      | .ok gv =>
          match getHypotheses a.poi a.compute_confidence_interval gv common a.hypotheses with
          | .error e => .error e
          | .ok hvs =>
              .ok { model := m
                    poi := a.poi
                    hypotheses := a.hypotheses
                    common_hypothesis := common
                    generate_values := gv
                    nominal_values := a.nominal_values
                    compute_confidence_interval := a.compute_confidence_interval
                    n_mc := a.n_mc
                    toydata_mode := a.toydata_mode
                    only_toydata := a.only_toydata
                    stored_toydata := a.stored_toydata
                    result_names := sortStrings m.get_parameter_list ++ ["ll", "dl", "ul"]
                    hypotheses_values := hvs }

/-- What a full pass of the `data_generator` generator produces: the
sequence of yielded datasets, whether the excess-stored-toydata warning
was emitted, and the toydata collection persisted at the end (if any). -/
structure GenResult where
  yields : List Data
  warned : Bool
  written : Option (List Nat)
deriving DecidableEq

/-- Embedding of `Runner.data_generator` (runner.py lines 319-364).  The
Python function is a generator: its body, including the mode checks and
the stored-toydata size check, runs only when it is first pulled from,
not at `Runner` construction. -/
def dataGenerator (r : Runner) : Except String GenResult :=
  if ¬ (r.toydata_mode = "read" ∨ r.toydata_mode = "generate" ∨
        r.toydata_mode = "generate_and_write" ∨ r.toydata_mode = "no_toydata") then
    .error ("Unknown toydata mode: " ++ r.toydata_mode)
  else if r.only_toydata = true ∧ r.toydata_mode ≠ "generate_and_write" then
    .error ("only_toydata is True, you should only generate_and_write, but toydata_mode is "
      ++ r.toydata_mode ++ "!")
  else if r.toydata_mode = "read" then
    if r.stored_toydata.length < r.n_mc then
      .error ("Number of stored toydata " ++ toString r.stored_toydata.length
        ++ " is less than number of Monte Carlo " ++ toString r.n_mc ++ "!")
    else
      .ok { yields := (r.stored_toydata.take r.n_mc).map (fun t => some t)
            warned := r.n_mc < r.stored_toydata.length
            written := none }
  else if r.toydata_mode = "no_toydata" then
    .ok { yields := List.replicate r.n_mc none, warned := false, written := none }
  else
    .ok { yields := (List.range r.n_mc).map (fun i => some (r.model.genData i r.generate_values))
          warned := false
          written := if r.toydata_mode = "generate_and_write" then
              some ((List.range r.n_mc).map (fun i => r.model.genData i r.generate_values))
            else none }

/-- Embedding of `Runner.simulate` (runner.py lines 366-368): consume the
data generator for its effects. -/
def simulate (r : Runner) : Except String GenResult := dataGenerator r

/-- The `(dl, ul)` pair of one fit (runner.py lines 393-400): the model's
confidence interval when enabled and the poi is unconstrained by the
hypothesis, `(nan, nan)` otherwise. -/
def ciBounds (r : Runner) (d : Data) (hv : PyDict) : PyFloat × PyFloat :=
  if r.compute_confidence_interval = true ∧ hasKey hv r.poi = false then
    r.model.ci d r.poi r.hypotheses_values.headI hv
  else (.nan, .nan)

/-- One field of a result row: the mutated fit record
(`fit_result[pn]` after `fit_result["ll"/"dl"/"ul"]` were set) read at a
result-column name. -/
def rowEntry (m : Model) (d : Data) (hv : PyDict) (dl ul : PyFloat) (pn : String) : PyFloat :=
  if pn = "ll" then .val (m.fitLL d hv)
  else if pn = "dl" then dl
  else if pn = "ul" then ul
  else .val (m.fitVal d hv pn)

/-- One result row (runner.py line 407): the tuple
`(fit_result[pn] for pn in self._result_names)`. -/
def pureRow (r : Runner) (d : Data) (hv : PyDict) : List PyFloat :=
  r.result_names.map
    (rowEntry r.model d hv (ciBounds r d hv).1 (ciBounds r d hv).2)

/-- Error message of the fittable-subset check (runner.py lines 386-390). -/
def subsetErrorMsg (hv : PyDict) (fittable : List String) : String :=
  "The hypothesis " ++ renderDict hv ++ " should be a subset of the fittable parameters "
    ++ renderNames fittable ++ " in the statistical model."

/-- Python `not (set(hv.keys()) - set(fittable))`. -/
def keysFittable (m : Model) (hv : PyDict) : Bool :=
  (dkeys hv).all (fun k => m.fittable.contains k)

/-- One hypothesis step of the inner loop (runner.py lines 383-404):
validate the fittable subset, fit, attach `ll` and the `(dl, ul)` pair. -/
def fitRowE (r : Runner) (d : Data) (hv : PyDict) : Except String (List PyFloat) :=
  if keysFittable r.model hv then .ok (pureRow r d hv)
  else .error (subsetErrorMsg hv r.model.fittable)

/-- A result table: one row per Monte Carlo iteration. -/
abbrev Table := List (List PyFloat)

/-- Embedding of `Runner.simulate_and_fit` (runner.py lines 370-408): pull
the datasets, run the per-iteration per-hypothesis loop in source order
(iteration-major, so the first Python exception is reproduced), then fill
`results[j][i]` with the row of hypothesis `j` at iteration `i`. -/
def simulate_and_fit (r : Runner) : Except String (List Table) :=
  match dataGenerator r with
  | .error e => .error e
  | .ok gen =>
      match mapE (fun d => mapE (fitRowE r d) r.hypotheses_values) gen.yields with
      | .error e => .error e
      | .ok perIter =>
          .ok ((List.range r.hypotheses_values.length).map
            (fun j => perIter.map (fun rows => rows.getD j [])))

/-! Basic lemmas about the embedding's building blocks. -/

theorem mapE_ok_length {α β : Type} (f : α → Except String β) :
    ∀ (xs : List α) (ys : List β), mapE f xs = .ok ys → ys.length = xs.length := by
  intro xs
  induction xs with
  | nil => intro ys h; simp [mapE] at h; simp [← h]
  | cons x xs ih =>
      intro ys h
      simp only [mapE] at h
      cases hfx : f x with
      | error e => rw [hfx] at h; exact absurd h (by simp)
      | ok y =>
          rw [hfx] at h
          cases hrest : mapE f xs with
          | error e => rw [hrest] at h; exact absurd h (by simp)
          | ok ys₀ =>
              rw [hrest] at h
              cases h
              simp [ih ys₀ hrest]

theorem mapE_ok_get {α β : Type} (f : α → Except String β) :
    ∀ (xs : List α) (ys : List β), mapE f xs = .ok ys →
      ∀ (i : Nat) (x : α), xs[i]? = some x →
        ∃ y, ys[i]? = some y ∧ f x = .ok y := by
  intro xs
  induction xs with
  | nil => intro ys _ i x hx; simp at hx
  | cons x₀ xs ih =>
      intro ys h i x hx
      simp only [mapE] at h
      cases hfx : f x₀ with
      | error e => rw [hfx] at h; exact absurd h (by simp)
      | ok y₀ =>
          rw [hfx] at h
          cases hrest : mapE f xs with
          | error e => rw [hrest] at h; exact absurd h (by simp)
          | ok ys₀ =>
              rw [hrest] at h
              cases h
              cases i with
              | zero =>
                  simp at hx
                  exact ⟨y₀, by simp, hx ▸ hfx⟩
              | succ i =>
                  simp at hx ⊢
                  exact ih ys₀ hrest i x hx

theorem mapE_ok_forall {α β : Type} (f : α → Except String β)
    (xs : List α) (ys : List β) (h : mapE f xs = .ok ys) :
    ∀ x ∈ xs, ∃ y, f x = .ok y := by
  intro x hx
  obtain ⟨i, hi, hget⟩ := List.getElem_of_mem hx
  obtain ⟨y, _, hfy⟩ := mapE_ok_get f xs ys h i x (by simp [List.getElem?_eq_getElem hi, hget])
  exact ⟨y, hfy⟩

theorem mapE_eq_map {α β : Type} (f : α → Except String β) (g : α → β) :
    ∀ xs : List α, (∀ x ∈ xs, f x = .ok (g x)) → mapE f xs = .ok (xs.map g) := by
  intro xs
  induction xs with
  | nil => intro _; simp [mapE]
  | cons x xs ih =>
      intro hall
      have hx := hall x (by simp)
      have hxs := ih (fun x hx => hall x (by simp [hx]))
      simp [mapE, hx, hxs]

theorem mapE_error_first {α β : Type} (f : α → Except String β) (e : String) :
    ∀ (xs : List α) (j : Nat) (x : α), xs[j]? = some x → f x = .error e →
      (∀ (i : Nat) (x₂ : α), i < j → xs[i]? = some x₂ → ∃ y, f x₂ = .ok y) →
      mapE f xs = .error e := by
  intro xs
  induction xs with
  | nil => intro j x hj _ _; simp at hj
  | cons x₀ xs ih =>
      intro j x hj hx hpre
      cases j with
      | zero =>
          simp at hj
          simp [mapE, hj ▸ hx]
      | succ j =>
          simp at hj
          obtain ⟨y₀, hy₀⟩ := hpre 0 x₀ (Nat.succ_pos j) (by simp)
          have hrest := ih j x hj hx
            (fun i x₂ hi hx₂ => hpre (i + 1) x₂ (Nat.succ_lt_succ hi) (by simpa using hx₂))
          simp [mapE, hy₀, hrest]

theorem dlookup_dset_self (d : PyDict) (k : String) (v : PyVal) :
    dlookup (dset d k v) k = some v := by
  induction d with
  | nil => simp [dset, dlookup]
  | cons kv rest ih =>
      obtain ⟨k₀, v₀⟩ := kv
      by_cases hk : k₀ = k
      · simp [dset, hk, dlookup]
      · simp [dset, hk, dlookup, ih]

theorem dlookup_dset_other (d : PyDict) (k k₂ : String) (v : PyVal) (hne : k₂ ≠ k) :
    dlookup (dset d k v) k₂ = dlookup d k₂ := by
  have hne₂ : k ≠ k₂ := Ne.symm hne
  induction d with
  | nil => simp [dset, dlookup, hne₂]
  | cons kv rest ih =>
      obtain ⟨k₀, v₀⟩ := kv
      by_cases hk : k₀ = k
      · subst hk
        simp [dset, dlookup, hne₂]
      · by_cases hk₂ : k₀ = k₂
        · subst hk₂; simp [dset, hne, dlookup]
        · simp [dset, hk, dlookup, hk₂, ih]

theorem hasKey_iff_mem (d : PyDict) (k : String) :
    hasKey d k = true ↔ k ∈ dkeys d := by
  induction d with
  | nil => simp [hasKey, dlookup, dkeys]
  | cons kv rest ih =>
      obtain ⟨k₀, v₀⟩ := kv
      by_cases hk : k₀ = k
      · subst hk; simp [hasKey, dlookup, dkeys]
      · have hk₂ : ¬ k = k₀ := fun h => hk h.symm
        simp only [hasKey, dkeys] at ih ⊢
        simp [dlookup, hk, ih, hk₂]

theorem dlookup_dpop_self (d : PyDict) (k : String) (hnd : (dkeys d).Nodup) :
    dlookup (dpop d k) k = none := by
  induction d with
  | nil => simp [dpop, dlookup]
  | cons kv rest ih =>
      obtain ⟨k₀, v₀⟩ := kv
      simp only [dkeys, List.map_cons, List.nodup_cons] at hnd
      by_cases hk : k₀ = k
      · subst hk
        simp only [dpop, if_pos rfl]
        cases hre : dlookup rest k₀ with
        | none => exact hre
        | some v =>
            exfalso
            have hmem : k₀ ∈ dkeys rest := by
              rw [← hasKey_iff_mem]
              simp [hasKey, hre]
            exact hnd.1 (by simpa [dkeys] using hmem)
      · simp [dpop, hk, dlookup, hk, ih (by simpa [dkeys] using hnd.2)]

/-! The code-point order on strings used by `sortStrings` is total and
transitive, so Python `sorted` produces a sorted permutation. -/

theorem lexLe_total : ∀ a b : List Char, lexLe a b = true ∨ lexLe b a = true := by
  intro a
  induction a with
  | nil => intro b; left; simp [lexLe]
  | cons c cs ih =>
      intro b
      cases b with
      | nil => right; simp [lexLe]
      | cons d ds =>
          by_cases hcd : c.toNat < d.toNat
          · left; simp [lexLe, hcd]
          · by_cases hdc : d.toNat < c.toNat
            · right; simp [lexLe, hdc]
            · rcases ih ds with h | h
              · left; simp [lexLe, hcd, hdc, h]
              · right; simp [lexLe, hcd, hdc, h]

theorem lexLe_trans : ∀ a b c : List Char,
    lexLe a b = true → lexLe b c = true → lexLe a c = true := by
  intro a
  induction a with
  | nil => intro b c _ _; simp [lexLe]
  | cons x xs ih =>
      intro b c hab hbc
      cases b with
      | nil => simp [lexLe] at hab
      | cons y ys =>
          cases c with
          | nil => simp [lexLe] at hbc
          | cons z zs =>
              by_cases hxy : x.toNat < y.toNat
              · by_cases hyz : y.toNat < z.toNat
                · simp [lexLe, Nat.lt_trans hxy hyz]
                · by_cases hzy : z.toNat < y.toNat
                  · simp [lexLe, hyz, hzy] at hbc
                  · have hyz₂ : y.toNat = z.toNat :=
                      Nat.le_antisymm (Nat.le_of_not_lt hzy) (Nat.le_of_not_lt hyz)
                    simp [lexLe, hyz₂ ▸ hxy]
              · by_cases hyx : y.toNat < x.toNat
                · simp [lexLe, hxy, hyx] at hab
                · have hxy₂ : x.toNat = y.toNat :=
                    Nat.le_antisymm (Nat.le_of_not_lt hyx) (Nat.le_of_not_lt hxy)
                  by_cases hyz : y.toNat < z.toNat
                  · simp [lexLe, hxy₂ ▸ hyz]
                  · by_cases hzy : z.toNat < y.toNat
                    · simp [lexLe, hyz, hzy] at hbc
                    · simp [lexLe, hxy, hyx] at hab
                      simp [lexLe, hyz, hzy] at hbc
                      have hxz : ¬ x.toNat < z.toNat := hxy₂ ▸ hyz
                      have hzx : ¬ z.toNat < x.toNat := hxy₂ ▸ hzy
                      simp [lexLe, hxz, hzx, ih ys zs hab hbc]

instance : IsTotal String (fun a b => pyStrLe a b = true) :=
  ⟨fun a b => lexLe_total a.data b.data⟩

instance : IsTrans String (fun a b => pyStrLe a b = true) :=
  ⟨fun a b c => lexLe_trans a.data b.data c.data⟩

theorem sortStrings_sorted (l : List String) :
    List.Sorted (fun a b => pyStrLe a b = true) (sortStrings l) :=
  List.sorted_insertionSort (fun a b => pyStrLe a b = true) l

theorem sortStrings_perm (l : List String) : List.Perm (sortStrings l) l :=
  List.perm_insertionSort (fun a b => pyStrLe a b = true) l

/-! Inversion lemmas for the embedded Runner operations. -/

theorem getHypotheses_ok (poi : String) (cci : Bool) (gv common : PyDict)
    (hyps : List HypSpec) (hvs : List PyDict)
    (h : getHypotheses poi cci gv common hyps = .ok hvs) :
    hvs.length = hyps.length ∧ hyps ≠ [] ∧
    (cci = true → hasFree hyps = true) ∧
    (hasFree hyps = true → idxOfFree hyps = 0) ∧
    ∀ (j : Nat) (hs : HypSpec), hyps[j]? = some hs →
      ∃ hd, resolveHypSpec poi gv hs = .ok hd ∧
        hvs[j]? = some (dupdate common hd) ∧
        allNumeric (dupdate common hd) = true := by
  by_cases h0 : hyps.length = 0
  · simp [getHypotheses, h0] at h
  by_cases h1 : ¬ hasFree hyps = true ∧ cci = true
  · simp only [getHypotheses, h0, if_false, if_pos h1] at h
    exact absurd h (by simp)
  by_cases h2 : hasFree hyps = true ∧ idxOfFree hyps ≠ 0
  · simp only [getHypotheses, h0, if_false, if_neg h1, if_pos h2] at h
    exact absurd h (by simp)
  have hmap : mapE (fun hs =>
      match resolveHypSpec poi gv hs with
      | .error e => .error e
      | .ok hd =>
          let arr := dupdate common hd
          if allNumeric arr then .ok arr
          else .error ("hypothesis should be a dict of float! But " ++ renderDict arr
            ++ " is provided.")) hyps = .ok hvs := by
    simpa only [getHypotheses, h0, if_false, if_neg h1, if_neg h2] using h
  refine ⟨mapE_ok_length _ hyps hvs hmap, by simpa using h0,
    fun hcci => by tauto, fun hfree => by tauto, ?_⟩
  intro j hs hj
  obtain ⟨y, hy, hfy⟩ := mapE_ok_get _ hyps hvs hmap j hs hj
  cases hres : resolveHypSpec poi gv hs with
  | error e => rw [hres] at hfy; exact absurd hfy (by simp)
  | ok hd =>
      rw [hres] at hfy
      simp only at hfy
      by_cases hnum : allNumeric (dupdate common hd) = true
      · rw [if_pos hnum] at hfy
        cases hfy
        exact ⟨hd, rfl, hy, hnum⟩
      · rw [if_neg hnum] at hfy
        exact absurd hfy (by simp)

theorem getHypotheses_no_free (poi : String) (gv common : PyDict)
    (hyps : List HypSpec) (hne : hyps ≠ []) (hfree : hasFree hyps = false) :
    getHypotheses poi true gv common hyps
      = .error "free hypothesis is needed for confidence interval calculation!" := by
  have h0 : ¬ hyps.length = 0 := by simpa using hne
  simp [getHypotheses, h0, hfree]

theorem getHypotheses_free_not_first (poi : String) (cci : Bool) (gv common : PyDict)
    (hyps : List HypSpec) (hne : hyps ≠ []) (hfree : hasFree hyps = true)
    (hidx : idxOfFree hyps ≠ 0) :
    getHypotheses poi cci gv common hyps
      = .error "free hypothesis should be the first hypothesis!" := by
  have h0 : ¬ hyps.length = 0 := by simpa using hne
  simp [getHypotheses, h0, hfree, hidx]

theorem init_ok (m : Model) (a : RunnerArgs) (r : Runner)
    (h : Runner.init m a = .ok r) :
    r.model = m ∧ r.poi = a.poi ∧ r.hypotheses = a.hypotheses ∧
    r.nominal_values = a.nominal_values ∧
    r.compute_confidence_interval = a.compute_confidence_interval ∧
    r.n_mc = a.n_mc ∧ r.toydata_mode = a.toydata_mode ∧
    r.only_toydata = a.only_toydata ∧ r.stored_toydata = a.stored_toydata ∧
    r.result_names = sortStrings m.fittable ++ ["ll", "dl", "ul"] ∧
    setCommonHypothesis a.common_hypothesis = .ok r.common_hypothesis ∧
    setGenerateValues m a.poi a.nominal_values a.generate_values = .ok r.generate_values ∧
    getHypotheses a.poi a.compute_confidence_interval r.generate_values r.common_hypothesis
      a.hypotheses = .ok r.hypotheses_values := by
  unfold Runner.init at h
  split at h
  · exact absurd h (by simp)
  rename_i common hc
  split at h
  · exact absurd h (by simp)
  rename_i gv hg
  split at h
  · exact absurd h (by simp)
  rename_i hvs hh
  cases h
  exact ⟨rfl, rfl, rfl, rfl, rfl, rfl, rfl, rfl, rfl, rfl, hc, hg, hh⟩

theorem init_hypotheses_nonempty (m : Model) (a : RunnerArgs) (r : Runner)
    (h : Runner.init m a = .ok r) : r.hypotheses_values ≠ [] := by
  obtain ⟨-, -, -, -, -, -, -, -, -, -, -, -, hh⟩ := init_ok m a r h
  obtain ⟨hlen, hne, -, -, -⟩ :=
    getHypotheses_ok a.poi a.compute_confidence_interval r.generate_values
      r.common_hypothesis a.hypotheses r.hypotheses_values hh
  intro hcon
  exact hne (List.length_eq_zero.mp (by simp [← hlen, hcon]))

theorem dataGenerator_ok_length (r : Runner) (gen : GenResult)
    (h : dataGenerator r = .ok gen) : gen.yields.length = r.n_mc := by
  unfold dataGenerator at h
  split at h
  · exact absurd h (by simp)
  split at h
  · exact absurd h (by simp)
  split at h
  · split at h
    · exact absurd h (by simp)
    · cases h
      next hsize =>
        simp [List.length_take]
        omega
  split at h
  · cases h; simp
  · cases h; simp

theorem mapE_fitRow_ok (r : Runner) (d : Data) :
    ∀ (hvs : List PyDict) (rows : List (List PyFloat)),
      mapE (fitRowE r d) hvs = .ok rows →
      rows = hvs.map (fun hv => pureRow r d hv) ∧
      ∀ hv ∈ hvs, keysFittable r.model hv = true := by
  intro hvs
  induction hvs with
  | nil => intro rows h; simp [mapE] at h; simp [← h]
  | cons hv hvs ih =>
      intro rows h
      simp only [mapE] at h
      cases hf : fitRowE r d hv with
      | error e => rw [hf] at h; exact absurd h (by simp)
      | ok row =>
          rw [hf] at h
          cases hrest : mapE (fitRowE r d) hvs with
          | error e => rw [hrest] at h; exact absurd h (by simp)
          | ok rows₀ =>
              rw [hrest] at h
              cases h
              obtain ⟨hrows, hall⟩ := ih rows₀ hrest
              unfold fitRowE at hf
              by_cases hk : keysFittable r.model hv = true
              · rw [if_pos hk] at hf
                cases hf
                refine ⟨by simp [hrows], ?_⟩
                intro hv₂ hm
                rcases List.mem_cons.mp hm with hm | hm
                · exact hm ▸ hk
                · exact hall hv₂ hm
              · rw [if_neg hk] at hf
                exact absurd hf (by simp)

theorem mapE_outer_ok (r : Runner) :
    ∀ (yields : List Data) (perIter : List (List (List PyFloat))),
      mapE (fun d => mapE (fitRowE r d) r.hypotheses_values) yields = .ok perIter →
      perIter = yields.map (fun d => r.hypotheses_values.map (fun hv => pureRow r d hv)) ∧
      ∀ d ∈ yields, ∀ hv ∈ r.hypotheses_values, keysFittable r.model hv = true := by
  intro yields
  induction yields with
  | nil => intro perIter h; simp [mapE] at h; simp [← h]
  | cons d ds ih =>
      intro perIter h
      simp only [mapE] at h
      cases hf : mapE (fitRowE r d) r.hypotheses_values with
      | error e => rw [hf] at h; exact absurd h (by simp)
      | ok rows =>
          rw [hf] at h
          cases hrest : mapE (fun d => mapE (fitRowE r d) r.hypotheses_values) ds with
          | error e => rw [hrest] at h; exact absurd h (by simp)
          | ok perIter₀ =>
              rw [hrest] at h
              cases h
              obtain ⟨hrows, hall₀⟩ := mapE_fitRow_ok r d r.hypotheses_values rows hf
              obtain ⟨hper, hall⟩ := ih perIter₀ hrest
              refine ⟨by simp [hrows, hper], ?_⟩
              intro d₂ hd₂ hv hhv
              rcases List.mem_cons.mp hd₂ with hd₂ | hd₂
              · exact hall₀ hv hhv
              · exact hall d₂ hd₂ hv hhv

theorem getD_map_lt {α β : Type} (f : α → β) :
    ∀ (l : List α) (j : Nat), j < l.length → ∀ (dβ : β) (dα : α),
      (l.map f).getD j dβ = f (l.getD j dα) := by
  intro l
  induction l with
  | nil => intro j hj; simp at hj
  | cons x xs ih =>
      intro j hj dβ dα
      cases j with
      | zero => simp
      | succ j =>
          simp only [List.map_cons, List.getD_cons_succ]
          exact ih j (by simpa using hj) dβ dα

/-- Characterization of a successful `simulate_and_fit` run: the data
generator succeeded, every hypothesis passed the fittable-subset check at
every iteration, and table `j` holds, in Monte Carlo order, the row of
hypothesis `j` computed from the dataset of each iteration. -/
theorem sf_ok_char (r : Runner) (tables : List Table)
    (h : simulate_and_fit r = .ok tables) :
    ∃ gen, dataGenerator r = .ok gen ∧
      tables = (List.range r.hypotheses_values.length).map
        (fun j => gen.yields.map (fun d => pureRow r d (r.hypotheses_values.getD j []))) ∧
      (∀ d ∈ gen.yields, ∀ hv ∈ r.hypotheses_values, keysFittable r.model hv = true) := by
  unfold simulate_and_fit at h
  split at h
  · exact absurd h (by simp)
  rename_i gen hg
  split at h
  · exact absurd h (by simp)
  rename_i perIter hp
  cases h
  obtain ⟨hper, hall⟩ := mapE_outer_ok r gen.yields perIter hp
  refine ⟨gen, hg, ?_, hall⟩
  rw [hper]
  refine List.map_congr_left ?_
  intro j hj
  rw [List.map_map]
  refine List.map_congr_left ?_
  intro d _
  exact getD_map_lt (fun hv => pureRow r d hv) r.hypotheses_values j
    (List.mem_range.mp hj) [] []

theorem lt_of_getElem?_some {α : Type} :
    ∀ (l : List α) (j : Nat) (x : α), l[j]? = some x → j < l.length := by
  intro l
  induction l with
  | nil => intro j x h; simp at h
  | cons y ys ih =>
      intro j x h
      cases j with
      | zero => simp
      | succ j => simp only [List.getElem?_cons_succ] at h; simpa using ih j x h

theorem getD_of_getElem?_some {α : Type} :
    ∀ (l : List α) (j : Nat) (x d : α), l[j]? = some x → l.getD j d = x := by
  intro l
  induction l with
  | nil => intro j x d h; simp at h
  | cons y ys ih =>
      intro j x d h
      cases j with
      | zero => simp at h; simp [h]
      | succ j =>
          simp only [List.getElem?_cons_succ] at h
          simp only [List.getD_cons_succ]
          exact ih j x d h

/-- The gather step of `simulate_and_fit`, rewritten per hypothesis index:
reading column `j` of every per-iteration row block gives, for each `j`,
the rows of hypothesis `j` in Monte Carlo order. -/
theorem gather_eq (r : Runner) (yields : List Data) :
    (List.range r.hypotheses_values.length).map
      (fun j => (yields.map (fun d => r.hypotheses_values.map (fun hv => pureRow r d hv))).map
        (fun rows => rows.getD j []))
    = (List.range r.hypotheses_values.length).map
      (fun j => yields.map (fun d => pureRow r d (r.hypotheses_values.getD j []))) := by
  refine List.map_congr_left ?_
  intro j hj
  rw [List.map_map]
  refine List.map_congr_left ?_
  intro d _
  exact getD_map_lt (fun hv => pureRow r d hv) r.hypotheses_values j
    (List.mem_range.mp hj) [] []

/-! Concrete model and argument sets used for witnesses and
counterexamples. -/

/-- A small concrete statistical model: two fittable parameters, constant
fit and confidence-interval outputs, one expectation component. -/
def demoModel : Model :=
  { fittable := ["sigma", "mu"]
    fitVal := fun _ _ _ => 5
    fitLL := fun _ _ => 7
    ci := fun _ _ _ _ => (.val 1, .val 2)
    expectations := fun _ c => if c = "signal" then some 10 else none
    genData := fun i _ => i }

/-! Claim theorems. -/

/-- C1: for every Runner with Monte Carlo count `n_mc` and `k` resolved
hypotheses, `simulate_and_fit` returns exactly `k` result tables (one per
hypothesis, in hypothesis list order), each with exactly `n_mc` rows
ordered by Monte Carlo repetition index, and each table's columns are the
sorted fittable-parameter names followed by the fixed columns
`[ll, dl, ul]`. -/
theorem C1_result_table_shape (m : Model) (a : RunnerArgs) (r : Runner)
    (hinit : Runner.init m a = .ok r) (tables : List Table)
    (hrun : simulate_and_fit r = .ok tables) :
    ∃ gen, dataGenerator r = .ok gen ∧
      tables.length = r.hypotheses_values.length ∧
      r.result_names = sortStrings m.fittable ++ ["ll", "dl", "ul"] ∧
      List.Sorted (fun x y => pyStrLe x y = true) (sortStrings m.fittable) ∧
      List.Perm (sortStrings m.fittable) m.fittable ∧
      (∀ (j : Nat) (hv : PyDict), r.hypotheses_values[j]? = some hv →
        ∃ table, tables[j]? = some table ∧ table.length = r.n_mc ∧
          ∀ (i : Nat) (d : Data), gen.yields[i]? = some d →
            table[i]? = some (pureRow r d hv) ∧
            (pureRow r d hv).length = r.result_names.length) := by
  obtain ⟨gen, hgen, htab, -⟩ := sf_ok_char r tables hrun
  obtain ⟨-, -, -, -, -, -, -, -, -, hrn, -, -, -⟩ := init_ok m a r hinit
  refine ⟨gen, hgen, ?_, hrn, sortStrings_sorted m.fittable, sortStrings_perm m.fittable, ?_⟩
  · rw [htab]; simp
  · intro j hv hj
    have hjlt : j < r.hypotheses_values.length := lt_of_getElem?_some _ j hv hj
    refine ⟨gen.yields.map (fun d => pureRow r d hv), ?_, ?_, ?_⟩
    · rw [htab, List.getElem?_map, List.getElem?_range hjlt]
      simp only [Option.map_some']
      rw [getD_of_getElem?_some r.hypotheses_values j hv [] hj]
    · simp [dataGenerator_ok_length r gen hgen]
    · intro i d hi
      constructor
      · rw [List.getElem?_map, hi]; rfl
      · simp [pureRow]

/-- C2: hypothesis resolution at Runner construction is order-preserving
and resolves `"free"` to the empty mapping, `"null"` to `(poi, 0.0)`, and
`"true"` to `(poi, generate_values[poi])` (failing if the poi is absent
from the generate values); each resolved hypothesis is the common
hypothesis overlaid by the specific override; with empty common
hypothesis, constructing on `["free", "null"]` yields `[{}, {poi: 0.0}]`,
while `["null", "free"]` fails because `"free"` must be first. -/
theorem C2_hypothesis_resolution :
    (∀ (poi : String) (cci : Bool) (gv common : PyDict) (hyps : List HypSpec)
        (hvs : List PyDict), getHypotheses poi cci gv common hyps = .ok hvs →
        hvs.length = hyps.length ∧
        (∀ (j : Nat) (hs : HypSpec), hyps[j]? = some hs →
          ∃ hd, resolveHypSpec poi gv hs = .ok hd ∧ hvs[j]? = some (dupdate common hd)) ∧
        (.str "true" ∈ hyps → hasKey gv poi = true)) ∧
    (∀ (poi : String) (gv : PyDict), resolveHypSpec poi gv (.str "free") = .ok [] ∧
        resolveHypSpec poi gv (.str "null") = .ok [(poi, .pyFloat 0)]) ∧
    (∀ (poi : String) (gv : PyDict) (v : PyVal), dlookup gv poi = some v →
        resolveHypSpec poi gv (.str "true") = .ok [(poi, v)]) ∧
    (∃ r, Runner.init demoModel { hypotheses := [.str "free", .str "null"] } = .ok r ∧
        r.hypotheses_values = [[], [("mu", .pyFloat 0)]]) ∧
    (Runner.init demoModel { hypotheses := [.str "null", .str "free"] }
        = .error "free hypothesis should be the first hypothesis!") := by
  refine ⟨?_, ?_, ?_, ⟨_, rfl, rfl⟩, rfl⟩
  · intro poi cci gv common hyps hvs h
    obtain ⟨hlen, -, -, -, hres⟩ := getHypotheses_ok poi cci gv common hyps hvs h
    refine ⟨hlen, fun j hs hj => ?_, fun htrue => ?_⟩
    · obtain ⟨hd, hr, hg, -⟩ := hres j hs hj
      exact ⟨hd, hr, hg⟩
    · obtain ⟨i, hilt, hig⟩ := List.getElem_of_mem htrue
      obtain ⟨hd, hr, -, -⟩ := hres i (.str "true") (by simp [List.getElem?_eq_getElem hilt, hig])
      cases hlk : dlookup gv poi with
      | none => rw [resolveHypSpec] at hr; simp [hlk] at hr
      | some v => simp [hasKey, hlk]
  · intro poi gv
    constructor
    · simp [resolveHypSpec]
    · simp [resolveHypSpec]
  · intro poi gv v hv
    simp [resolveHypSpec, hv]

/-- A model whose `get_expectation_values` exposes a `signal` component
with nominal expectation 10: used to instantiate the `poi_expectation`
resolution. -/
def demoModelExp : Model := demoModel

/-- C3: `poi_expectation` resolution on the generate values: when the key
`poi_expectation` carries value E and the nominal expectation of the poi's
component is N ≠ 0, the resolved poi value is exactly E/N and the key
`poi_expectation` is gone afterward; supplying both `poi_expectation` and
an explicit poi value fails, as does a poi that does not end with the
`_rate_multiplier` suffix. -/
theorem C3_poi_expectation :
    (∀ (m : Model) (poi : String) (gv nominal : PyDict) (e : PyVal) (n : ℚ),
        (dkeys gv).Nodup →
        allNumeric gv = true →
        dlookup gv "poi_expectation" = some e →
        hasKey gv poi = false →
        strEndsWith poi "_rate_multiplier" = true →
        m.expectations (dupdate (dpop gv "poi_expectation") nominal)
          (replaceRemove poi "_rate_multiplier") = some n →
        n ≠ 0 →
        ∃ gv₂, setGenerateValues m poi nominal gv = .ok gv₂ ∧
          dlookup gv₂ poi = some (.pyFloat (e.toRat / n)) ∧
          hasKey gv₂ "poi_expectation" = false) ∧
    (∀ (m : Model) (poi : String) (gv nominal : PyDict),
        allNumeric gv = true →
        hasKey gv "poi_expectation" = true →
        hasKey gv poi = true →
        ∃ msg, setGenerateValues m poi nominal gv = .error msg) ∧
    (∀ (m : Model) (poi : String) (gv nominal : PyDict),
        allNumeric gv = true →
        hasKey gv "poi_expectation" = true →
        hasKey gv poi = false →
        strEndsWith poi "_rate_multiplier" = false →
        ∃ msg, setGenerateValues m poi nominal gv = .error msg) := by
  refine ⟨?_, ?_, ?_⟩
  · intro m poi gv nominal e n hnd hnum hpe hnk hsfx hex hnz
    have hpoi_ne : "poi_expectation" ≠ poi := by
      intro hcon
      rw [← hcon] at hsfx
      exact absurd hsfx (by decide)
    refine ⟨dset (dpop gv "poi_expectation") poi (.pyFloat (e.toRat / n)), ?_, ?_, ?_⟩
    · simp only [setGenerateValues, hnum, if_true, updatePoi, hpe]
      simp [hnk, hsfx, hex, hnz]
    · exact dlookup_dset_self _ poi _
    · unfold hasKey
      rw [dlookup_dset_other _ poi "poi_expectation" _ hpoi_ne]
      rw [dlookup_dpop_self gv "poi_expectation" hnd]
      rfl
  · intro m poi gv nominal hnum hpe hk
    unfold hasKey at hpe
    cases hlk : dlookup gv "poi_expectation" with
    | none => rw [hlk] at hpe; simp at hpe
    | some e =>
        refine ⟨"You can not specify both " ++ poi ++ " along with poi_expectation, because "
          ++ poi ++ " will be updated according to poi_expectation.", ?_⟩
        simp only [setGenerateValues, hnum, if_true, updatePoi, hlk]
        simp [hk]
  · intro m poi gv nominal hnum hpe hk hsfx
    unfold hasKey at hpe
    cases hlk : dlookup gv "poi_expectation" with
    | none => rw [hlk] at hpe; simp at hpe
    | some e =>
        refine ⟨"poi " ++ poi ++ " should end with _rate_multiplier, if poi_expectation is "
          ++ "provided, because you want to update the generate_values according to the "
          ++ "expectations.", ?_⟩
        simp only [setGenerateValues, hnum, if_true, updatePoi, hlk]
        simp [hk, hsfx]

/-- C4: in the simulate-and-fit loop, for every Monte Carlo iteration and
every hypothesis, the `(dl, ul)` pair comes from the model's
confidence-interval operation — first hypothesis's resolved values as the
best-fit reference and the current hypothesis's values as the constraint
set — exactly when confidence-interval computation is enabled and the poi
is not a key of the current hypothesis; in every other case the pair is
`(nan, nan)`. -/
theorem C4_confidence_interval_condition (m : Model) (a : RunnerArgs) (r : Runner)
    (hinit : Runner.init m a = .ok r) (tables : List Table)
    (hrun : simulate_and_fit r = .ok tables)
    (gen : GenResult) (hgen : dataGenerator r = .ok gen)
    (j : Nat) (hv : PyDict) (hj : r.hypotheses_values[j]? = some hv)
    (i : Nat) (d : Data) (hi : gen.yields[i]? = some d)
    (p : Nat) (hp : r.result_names[p]? = some "dl")
    (q : Nat) (hq : r.result_names[q]? = some "ul") :
    ∃ hv₀ table row, r.hypotheses_values[0]? = some hv₀ ∧
      r.hypotheses_values.headI = hv₀ ∧
      tables[j]? = some table ∧ table[i]? = some row ∧
      ((r.compute_confidence_interval = true ∧ hasKey hv r.poi = false) →
        row[p]? = some (r.model.ci d r.poi hv₀ hv).1 ∧
        row[q]? = some (r.model.ci d r.poi hv₀ hv).2) ∧
      (¬ (r.compute_confidence_interval = true ∧ hasKey hv r.poi = false) →
        row[p]? = some PyFloat.nan ∧ row[q]? = some PyFloat.nan) := by
  obtain ⟨gen₂, hgen₂, htab, -⟩ := sf_ok_char r tables hrun
  rw [hgen] at hgen₂
  cases hgen₂
  have hne := init_hypotheses_nonempty m a r hinit
  have hjlt : j < r.hypotheses_values.length := lt_of_getElem?_some _ j hv hj
  have h0 : r.hypotheses_values[0]? = some r.hypotheses_values.headI := by
    cases hl : r.hypotheses_values with
    | nil => exact absurd hl hne
    | cons x xs => simp
  refine ⟨r.hypotheses_values.headI, gen.yields.map (fun d => pureRow r d hv),
    pureRow r d hv, h0, rfl, ?_, ?_, ?_, ?_⟩
  · rw [htab, List.getElem?_map, List.getElem?_range hjlt]
    simp only [Option.map_some']
    rw [getD_of_getElem?_some r.hypotheses_values j hv [] hj]
  · rw [List.getElem?_map, hi]; rfl
  · intro hcond
    have hrowp : (pureRow r d hv)[p]? = some (ciBounds r d hv).1 := by
      unfold pureRow
      rw [List.getElem?_map, hp]
      simp [rowEntry]
    have hrowq : (pureRow r d hv)[q]? = some (ciBounds r d hv).2 := by
      unfold pureRow
      rw [List.getElem?_map, hq]
      simp [rowEntry]
    rw [hrowp, hrowq]
    unfold ciBounds
    rw [if_pos hcond]
    exact ⟨rfl, rfl⟩
  · intro hcond
    have hrowp : (pureRow r d hv)[p]? = some (ciBounds r d hv).1 := by
      unfold pureRow
      rw [List.getElem?_map, hp]
      simp [rowEntry]
    have hrowq : (pureRow r d hv)[q]? = some (ciBounds r d hv).2 := by
      unfold pureRow
      rw [List.getElem?_map, hq]
      simp [rowEntry]
    rw [hrowp, hrowq]
    unfold ciBounds
    rw [if_neg hcond]
    exact ⟨rfl, rfl⟩

/-- Arguments with `only_toydata = True` and a toy-data mode other than
`generate_and_write`: the operative case of C5. -/
def argsC5 : RunnerArgs :=
  { toydata_mode := "read", only_toydata := true, stored_toydata := [0, 1, 2] }

/-- C5 counterexample: constructing a Runner with `only_toydata = True`
and `toydata_mode = "read"` succeeds — the claim that this combination
fails at construction is false on the code, where the check sits inside
the `data_generator` generator body. -/
theorem C5_counterexample : ∃ r, Runner.init demoModel argsC5 = .ok r := ⟨_, rfl⟩

/-- C5 (amended): a Runner with `only_toydata = True` and a toy-data mode
other than `generate_and_write` constructs successfully; the combination
fails when the toy-data generator is first pulled from — before the first
Monte Carlo iteration — in both `simulate` and `simulate_and_fit`. -/
theorem C5_only_toydata_requires_write (m : Model) (a : RunnerArgs) (r : Runner)
    (hinit : Runner.init m a = .ok r) (hot : a.only_toydata = true)
    (hmode : a.toydata_mode ≠ "generate_and_write") :
    ∃ e, dataGenerator r = .error e ∧ simulate r = .error e ∧
      simulate_and_fit r = .error e := by
  obtain ⟨-, -, -, -, -, -, hmode', hot', -, -, -, -, -⟩ := init_ok m a r hinit
  have hrm : r.toydata_mode ≠ "generate_and_write" := by rw [hmode']; exact hmode
  have hro : r.only_toydata = true := by rw [hot']; exact hot
  by_cases hval : (r.toydata_mode = "read" ∨ r.toydata_mode = "generate" ∨
      r.toydata_mode = "generate_and_write" ∨ r.toydata_mode = "no_toydata")
  · have hdg : dataGenerator r
        = .error ("only_toydata is True, you should only generate_and_write, but toydata_mode is "
          ++ r.toydata_mode ++ "!") := by
      unfold dataGenerator
      rw [if_neg (not_not_intro hval), if_pos ⟨hro, hrm⟩]
    exact ⟨_, hdg, hdg, by simp only [simulate_and_fit, hdg]⟩
  · have hdg : dataGenerator r = .error ("Unknown toydata mode: " ++ r.toydata_mode) := by
      unfold dataGenerator
      rw [if_pos hval]
    exact ⟨_, hdg, hdg, by simp only [simulate_and_fit, hdg]⟩

/-- C6: in `read` toy-data mode, a stored collection with fewer records
than `n_mc` makes the run fail before any fitting; with more records than
`n_mc` the run proceeds, the excess-records warning is emitted, and the
generator yields exactly the stored records at indices `0..n_mc-1`, with
record `i` yielded for Monte Carlo iteration `i`. -/
theorem C6_read_mode (m : Model) (a : RunnerArgs) (r : Runner)
    (hinit : Runner.init m a = .ok r)
    (hmode : a.toydata_mode = "read") (hot : a.only_toydata = false) :
    (r.stored_toydata.length < r.n_mc →
      ∃ e, dataGenerator r = .error e ∧ simulate_and_fit r = .error e) ∧
    (r.n_mc < r.stored_toydata.length →
      ∃ gen, dataGenerator r = .ok gen ∧ gen.warned = true ∧
        gen.yields.length = r.n_mc ∧
        gen.yields = (r.stored_toydata.take r.n_mc).map some ∧
        ∀ (i t : Nat), i < r.n_mc → r.stored_toydata[i]? = some t →
          gen.yields[i]? = some (some t)) := by
  obtain ⟨-, -, -, -, -, -, hmode', hot', -, -, -, -, -⟩ := init_ok m a r hinit
  have hread : r.toydata_mode = "read" := by rw [hmode']; exact hmode
  have hro : r.only_toydata = false := by rw [hot']; exact hot
  constructor
  · intro hlt
    have hdg : dataGenerator r = .error ("Number of stored toydata "
        ++ toString r.stored_toydata.length ++ " is less than number of Monte Carlo "
        ++ toString r.n_mc ++ "!") := by
      unfold dataGenerator
      rw [if_neg (not_not_intro (Or.inl hread)), if_neg (by simp [hro]), if_pos hread,
        if_pos hlt]
    exact ⟨_, hdg, by simp only [simulate_and_fit, hdg]⟩
  · intro hgt
    have hdg : dataGenerator r
        = .ok { yields := (r.stored_toydata.take r.n_mc).map (fun t => some t)
                warned := decide (r.n_mc < r.stored_toydata.length)
                written := none } := by
      unfold dataGenerator
      rw [if_neg (not_not_intro (Or.inl hread)), if_neg (by simp [hro]), if_pos hread,
        if_neg (by omega)]
    refine ⟨_, hdg, by simp [hgt], ?_, rfl, ?_⟩
    · simp only [List.length_map, List.length_take]
      omega
    · intro i t hi ht
      simp only [List.getElem?_map]
      rw [List.getElem?_take_of_lt hi, ht]
      rfl

theorem init_error_of_empty (m : Model) (a : RunnerArgs) (common gv : PyDict)
    (hc : setCommonHypothesis a.common_hypothesis = .ok common)
    (hg : setGenerateValues m a.poi a.nominal_values a.generate_values = .ok gv)
    (hemp : a.hypotheses = []) :
    Runner.init m a = .error "hypotheses should not be empty!" := by
  simp only [Runner.init, hc, hg, hemp]
  simp [getHypotheses]

theorem init_error_of_no_free (m : Model) (a : RunnerArgs) (common gv : PyDict)
    (hc : setCommonHypothesis a.common_hypothesis = .ok common)
    (hg : setGenerateValues m a.poi a.nominal_values a.generate_values = .ok gv)
    (hcci : a.compute_confidence_interval = true)
    (hfree : hasFree a.hypotheses = false) (hne : a.hypotheses ≠ []) :
    Runner.init m a
      = .error "free hypothesis is needed for confidence interval calculation!" := by
  simp only [Runner.init, hc, hg, hcci]
  rw [getHypotheses_no_free a.poi gv common a.hypotheses hne hfree]

/-- C7: Runner construction fails with a descriptive error when the
hypothesis list is empty, and when confidence-interval computation is
requested while `"free"` is absent; both checks happen at construction —
`Runner.init` itself returns the error, for every content of the toy-data
store, so no toy data is touched. -/
theorem C7_construction_errors (m : Model) (a : RunnerArgs) (common gv : PyDict)
    (hc : setCommonHypothesis a.common_hypothesis = .ok common)
    (hg : setGenerateValues m a.poi a.nominal_values a.generate_values = .ok gv) :
    (a.hypotheses = [] → ∀ stored : List Nat,
      Runner.init m { a with stored_toydata := stored }
        = .error "hypotheses should not be empty!") ∧
    (a.compute_confidence_interval = true → hasFree a.hypotheses = false →
      a.hypotheses ≠ [] → ∀ stored : List Nat,
      Runner.init m { a with stored_toydata := stored }
        = .error "free hypothesis is needed for confidence interval calculation!") := by
  constructor
  · intro hemp stored
    exact init_error_of_empty m { a with stored_toydata := stored } common gv hc hg hemp
  · intro hcci hfree hne stored
    exact init_error_of_no_free m { a with stored_toydata := stored } common gv
      hc hg hcci hfree hne

/-- C8: during the simulate-and-fit loop, for every Monte Carlo iteration
and every resolved hypothesis, if the hypothesis's keys are not a subset
of the model's fittable parameters the run fails at the first use of that
hypothesis with an error naming the offending hypothesis and the fittable
set; otherwise the run succeeds and every row is the fit record of the
model's fit operation invoked with the hypothesis as fixed constraints. -/
theorem C8_fittable_subset (m : Model) (a : RunnerArgs) (r : Runner)
    (hinit : Runner.init m a = .ok r) (gen : GenResult)
    (hgen : dataGenerator r = .ok gen) :
    ((∀ hv ∈ r.hypotheses_values, keysFittable r.model hv = true) →
      simulate_and_fit r = .ok ((List.range r.hypotheses_values.length).map
        (fun j => gen.yields.map (fun d => pureRow r d (r.hypotheses_values.getD j []))))) ∧
    (∀ (j : Nat) (hv : PyDict), 1 ≤ r.n_mc →
      r.hypotheses_values[j]? = some hv → keysFittable r.model hv = false →
      (∀ (j₂ : Nat) (hv₂ : PyDict), j₂ < j → r.hypotheses_values[j₂]? = some hv₂ →
        keysFittable r.model hv₂ = true) →
      simulate_and_fit r = .error (subsetErrorMsg hv r.model.fittable)) := by
  constructor
  · intro hall
    have hinner : ∀ d ∈ gen.yields,
        (fun d => mapE (fitRowE r d) r.hypotheses_values) d
          = .ok (r.hypotheses_values.map (fun hv => pureRow r d hv)) := by
      intro d _
      exact mapE_eq_map (fitRowE r d) (fun hv => pureRow r d hv) r.hypotheses_values
        (fun hv hhv => by unfold fitRowE; rw [if_pos (hall hv hhv)])
    have houter := mapE_eq_map (fun d => mapE (fitRowE r d) r.hypotheses_values)
      (fun d => r.hypotheses_values.map (fun hv => pureRow r d hv)) gen.yields hinner
    simp only [simulate_and_fit, hgen, houter]
    rw [← gather_eq r gen.yields]
  · intro j hv hmc hj hbad hpre
    obtain ⟨d₀, hd₀⟩ : ∃ d₀, gen.yields[0]? = some d₀ := by
      have hlen := dataGenerator_ok_length r gen hgen
      cases hy : gen.yields with
      | nil => rw [hy] at hlen; simp at hlen; omega
      | cons d ds => exact ⟨d, by simp⟩
    have hinner : mapE (fitRowE r d₀) r.hypotheses_values
        = .error (subsetErrorMsg hv r.model.fittable) := by
      refine mapE_error_first (fitRowE r d₀) _ r.hypotheses_values j hv hj ?_ ?_
      · unfold fitRowE
        rw [if_neg (by simp [hbad])]
      · intro i hv₂ hi hget
        refine ⟨pureRow r d₀ hv₂, ?_⟩
        unfold fitRowE
        rw [if_pos (hpre i hv₂ hi hget)]
    have houter : mapE (fun d => mapE (fitRowE r d) r.hypotheses_values) gen.yields
        = .error (subsetErrorMsg hv r.model.fittable) :=
      mapE_error_first _ _ gen.yields 0 d₀ hd₀ hinner (by intro i x hi hx; omega)
    simp only [simulate_and_fit, hgen, houter]

/-- C9: generate-values resolution is the identity on every numeric
mapping that does not contain the key `poi_expectation`: the setter
returns the supplied mapping unchanged, and the stored generate values of
a constructed Runner equal the supplied mapping unchanged. -/
theorem C9_generate_values_identity :
    (∀ (m : Model) (poi : String) (nominal gv : PyDict),
      allNumeric gv = true → hasKey gv "poi_expectation" = false →
      setGenerateValues m poi nominal gv = .ok gv) ∧
    (∀ (m : Model) (a : RunnerArgs) (r : Runner), Runner.init m a = .ok r →
      hasKey a.generate_values "poi_expectation" = false →
      r.generate_values = a.generate_values) := by
  have hset : ∀ (m : Model) (poi : String) (nominal gv : PyDict),
      allNumeric gv = true → hasKey gv "poi_expectation" = false →
      setGenerateValues m poi nominal gv = .ok gv := by
    intro m poi nominal gv hnum hnope
    unfold hasKey at hnope
    cases hlk : dlookup gv "poi_expectation" with
    | none => simp only [setGenerateValues, hnum, if_true, updatePoi, hlk]
    | some e => rw [hlk] at hnope; simp at hnope
  refine ⟨hset, ?_⟩
  intro m a r hinit hnope
  obtain ⟨-, -, -, -, -, -, -, -, -, -, -, hg, -⟩ := init_ok m a r hinit
  unfold setGenerateValues at hg
  by_cases hnum : allNumeric a.generate_values = true
  · rw [if_pos hnum] at hg
    have hup : updatePoi m a.poi a.generate_values a.nominal_values
        = .ok a.generate_values := by
      unfold hasKey at hnope
      cases hlk : dlookup a.generate_values "poi_expectation" with
      | none => simp only [updatePoi, hlk]
      | some e => rw [hlk] at hnope; simp at hnope
    rw [hup] at hg
    simpa using hg.symm
  · rw [if_neg hnum] at hg
    exact absurd hg (by simp)

/-- Arguments carrying Python booleans inside `generate_values`,
`common_hypothesis` and an explicit hypothesis dict. -/
def argsC10 : RunnerArgs :=
  { generate_values := [("x", .pyBool true)]
    common_hypothesis := [("y", .pyBool false)]
    hypotheses := [.str "free", .dict [("z", .pyBool true)]] }

/-- C10: the numeric-mapping validation counts Python booleans as numeric
(`bool` is a subclass of `int`), so a Runner whose generate values, common
hypothesis and hypothesis overrides contain `True`/`False` constructs
without the "should be a dict of float" error. -/
theorem C10_bool_is_numeric :
    (∀ b : Bool, PyVal.isNumeric (.pyBool b) = true) ∧
    (∃ r, Runner.init demoModel argsC10 = .ok r ∧
      r.generate_values = [("x", .pyBool true)] ∧
      r.common_hypothesis = [("y", .pyBool false)] ∧
      r.hypotheses_values = [[("y", .pyBool false)], [("y", .pyBool false), ("z", .pyBool true)]]) :=
  ⟨fun _ => rfl, ⟨_, rfl, rfl, rfl, rfl⟩⟩

/-! Witnesses: each claim theorem with hypotheses, instantiated at a
concrete Runner configuration. -/

/-- Arguments for the C1 witness: two hypotheses, two Monte Carlo
iterations, no toy data. -/
def argsC1 : RunnerArgs :=
  { hypotheses := [.str "free", .str "null"], n_mc := 2, toydata_mode := "no_toydata" }

theorem C1_witness :
    ∃ r tables, Runner.init demoModel argsC1 = .ok r ∧
      simulate_and_fit r = .ok tables ∧
      (∃ gen, dataGenerator r = .ok gen ∧
        tables.length = r.hypotheses_values.length ∧
        r.result_names = sortStrings demoModel.fittable ++ ["ll", "dl", "ul"] ∧
        List.Sorted (fun x y => pyStrLe x y = true) (sortStrings demoModel.fittable) ∧
        List.Perm (sortStrings demoModel.fittable) demoModel.fittable ∧
        (∀ (j : Nat) (hv : PyDict), r.hypotheses_values[j]? = some hv →
          ∃ table, tables[j]? = some table ∧ table.length = r.n_mc ∧
            ∀ (i : Nat) (d : Data), gen.yields[i]? = some d →
              table[i]? = some (pureRow r d hv) ∧
              (pureRow r d hv).length = r.result_names.length)) := by
  refine ⟨_, _, rfl, rfl, ?_⟩
  exact C1_result_table_shape demoModel argsC1 _ rfl _ rfl

theorem C2_witness :
    ([[], [("mu", PyVal.pyFloat 0)]] : List PyDict).length
        = [HypSpec.str "free", HypSpec.str "null"].length ∧
    (∀ (j : Nat) (hs : HypSpec), [HypSpec.str "free", HypSpec.str "null"][j]? = some hs →
      ∃ hd, resolveHypSpec "mu" [] hs = .ok hd ∧
        ([[], [("mu", PyVal.pyFloat 0)]] : List PyDict)[j]? = some (dupdate [] hd)) ∧
    (HypSpec.str "true" ∈ [HypSpec.str "free", HypSpec.str "null"] → hasKey [] "mu" = true) :=
  C2_hypothesis_resolution.1 "mu" false [] [] [.str "free", .str "null"]
    [[], [("mu", .pyFloat 0)]] rfl

theorem C3_witness :
    ∃ gv₂, setGenerateValues demoModelExp "signal_rate_multiplier" []
        [("poi_expectation", .pyFloat 42)] = .ok gv₂ ∧
      dlookup gv₂ "signal_rate_multiplier"
        = some (.pyFloat ((PyVal.pyFloat 42).toRat / 10)) ∧
      hasKey gv₂ "poi_expectation" = false :=
  C3_poi_expectation.1 demoModelExp "signal_rate_multiplier"
    [("poi_expectation", .pyFloat 42)] [] (.pyFloat 42) 10
    (by decide) rfl rfl rfl (by decide) rfl (by norm_num)

/-- Arguments for the C4 witness: confidence intervals enabled, the free
hypothesis first, one iteration without toy data. -/
def argsC4 : RunnerArgs :=
  { hypotheses := [.str "free", .str "null"], n_mc := 1, toydata_mode := "no_toydata"
    compute_confidence_interval := true }

theorem C4_witness :
    ∃ r tables gen, Runner.init demoModel argsC4 = .ok r ∧
      simulate_and_fit r = .ok tables ∧ dataGenerator r = .ok gen ∧
      (∃ hv₀ table row, r.hypotheses_values[0]? = some hv₀ ∧
        r.hypotheses_values.headI = hv₀ ∧
        tables[0]? = some table ∧ table[0]? = some row ∧
        ((r.compute_confidence_interval = true ∧ hasKey [] r.poi = false) →
          row[3]? = some (r.model.ci none r.poi hv₀ []).1 ∧
          row[4]? = some (r.model.ci none r.poi hv₀ []).2) ∧
        (¬ (r.compute_confidence_interval = true ∧ hasKey [] r.poi = false) →
          row[3]? = some PyFloat.nan ∧ row[4]? = some PyFloat.nan)) := by
  refine ⟨_, _, _, rfl, rfl, rfl, ?_⟩
  exact C4_confidence_interval_condition demoModel argsC4 _ rfl _ rfl _ rfl
    0 [] rfl 0 none rfl 3 rfl 4 rfl

theorem C5_witness :
    ∃ r, Runner.init demoModel argsC5 = .ok r ∧
      ∃ e, dataGenerator r = .error e ∧ simulate r = .error e ∧
        simulate_and_fit r = .error e := by
  refine ⟨_, rfl, ?_⟩
  exact C5_only_toydata_requires_write demoModel argsC5 _ rfl rfl (by decide)

/-- Arguments for the C6 witness: read mode, three stored records, two
Monte Carlo iterations. -/
def argsC6 : RunnerArgs :=
  { toydata_mode := "read", n_mc := 2, stored_toydata := [5, 6, 7] }

theorem C6_witness :
    ∃ r, Runner.init demoModel argsC6 = .ok r ∧
      ((r.stored_toydata.length < r.n_mc →
        ∃ e, dataGenerator r = .error e ∧ simulate_and_fit r = .error e) ∧
      (r.n_mc < r.stored_toydata.length →
        ∃ gen, dataGenerator r = .ok gen ∧ gen.warned = true ∧
          gen.yields.length = r.n_mc ∧
          gen.yields = (r.stored_toydata.take r.n_mc).map some ∧
          ∀ (i t : Nat), i < r.n_mc → r.stored_toydata[i]? = some t →
            gen.yields[i]? = some (some t))) := by
  refine ⟨_, rfl, ?_⟩
  exact C6_read_mode demoModel argsC6 _ rfl rfl rfl

theorem C7_witness :
    Runner.init demoModel { hypotheses := ([] : List HypSpec) }
      = .error "hypotheses should not be empty!" ∧
    Runner.init demoModel
        { hypotheses := [HypSpec.str "null"], compute_confidence_interval := true }
      = .error "free hypothesis is needed for confidence interval calculation!" := by
  constructor
  · exact (C7_construction_errors demoModel { hypotheses := [] } [] [] rfl rfl).1 rfl []
  · exact (C7_construction_errors demoModel
      { hypotheses := [HypSpec.str "null"], compute_confidence_interval := true }
      [] [] rfl rfl).2 rfl rfl (by decide) []

/-- Arguments for the C8 witness: the second hypothesis constrains a
parameter the model does not declare fittable. -/
def argsC8 : RunnerArgs :=
  { hypotheses := [.str "free", .dict [("bogus", .pyFloat 1)]], n_mc := 1
    toydata_mode := "no_toydata" }

theorem C8_witness :
    ∃ r gen, Runner.init demoModel argsC8 = .ok r ∧ dataGenerator r = .ok gen ∧
      (((∀ hv ∈ r.hypotheses_values, keysFittable r.model hv = true) →
        simulate_and_fit r = .ok ((List.range r.hypotheses_values.length).map
          (fun j => gen.yields.map (fun d => pureRow r d (r.hypotheses_values.getD j []))))) ∧
      (∀ (j : Nat) (hv : PyDict), 1 ≤ r.n_mc →
        r.hypotheses_values[j]? = some hv → keysFittable r.model hv = false →
        (∀ (j₂ : Nat) (hv₂ : PyDict), j₂ < j → r.hypotheses_values[j₂]? = some hv₂ →
          keysFittable r.model hv₂ = true) →
        simulate_and_fit r = .error (subsetErrorMsg hv r.model.fittable))) := by
  refine ⟨_, _, rfl, rfl, ?_⟩
  exact C8_fittable_subset demoModel argsC8 _ rfl _ rfl

/-- Arguments for the C9 witness: a generate-values mapping without
`poi_expectation`. -/
def argsC9 : RunnerArgs :=
  { generate_values := [("mu", .pyFloat 3), ("sigma", .pyInt 2)] }

theorem C9_witness :
    setGenerateValues demoModel "mu" [] [("mu", PyVal.pyFloat 3), ("sigma", PyVal.pyInt 2)]
      = .ok [("mu", PyVal.pyFloat 3), ("sigma", PyVal.pyInt 2)] ∧
    ∃ r, Runner.init demoModel argsC9 = .ok r ∧
      r.generate_values = [("mu", PyVal.pyFloat 3), ("sigma", PyVal.pyInt 2)] := by
  constructor
  · exact C9_generate_values_identity.1 demoModel "mu" []
      [("mu", PyVal.pyFloat 3), ("sigma", PyVal.pyInt 2)] rfl rfl
  · exact ⟨_, rfl, C9_generate_values_identity.2 demoModel argsC9 _ rfl rfl⟩

end Alea
